import Mathlib

/-!
Shallow embedding of `src/app.py` (museum chatbot resolution pipeline).

External collaborators of the pipeline (language detection, translation, the
three fallback lookup providers, and the filesystem write performed inside
`save_question`) are modelled as oracle fields of an `Env` record; everything
else is translated directly from the Python source.

The fuzzy matcher embeds `difflib.get_close_matches` with `n = 1` and
`isjunk = None`, in the regime where autojunk is inactive (second sequence
shorter than 200 characters, which holds for every string this development
evaluates on).  `real_quick_ratio` and `quick_ratio` are upper bounds of
`ratio`, so the triple cutoff test inside `get_close_matches` is equivalent to
the single test on the exact similarity value, which is computed here as an
exact rational instead of a float.
-/

set_option maxRecDepth 40000

deriving instance DecidableEq for Except

/-- Embeds Python `str.lower` (exact for the ASCII range; the Arabic text in
this program has no letter case). -/
def pyLower (s : String) : String :=
  ⟨s.data.map Char.toLower⟩

/-- Embeds Python `str.strip`: remove whitespace from both ends. -/
def pyStrip (s : String) : String :=
  ⟨((s.data.dropWhile Char.isWhitespace).reverse.dropWhile Char.isWhitespace).reverse⟩

/-- Length of the longest common run at the heads of two character lists. -/
def commonRunLen : List Char → List Char → Nat
  | x :: xs, y :: ys => if x = y then commonRunLen xs ys + 1 else 0
  | _, _ => 0

/-- Embeds `SequenceMatcher.find_longest_match` over the window `a[alo:ahi]`,
`b[blo:bhi]` in the no-junk case: the longest matching block, earliest in `a`
and then earliest in `b`, or `(alo, blo, 0)` when nothing matches.  (The
dynamic program of difflib reports, for equal maximal sizes, the block that
starts first in `a` and then first in `b`; scanning all windowed common runs
in lexicographic start order with strict improvement yields the same block.) -/
def findLongestMatch (a b : List Char) (alo ahi blo bhi : Nat) : Nat × Nat × Nat :=
  (List.range (ahi - alo)).foldl (fun best di =>
    (List.range (bhi - blo)).foldl (fun acc dj =>
      let i := alo + di
      let j := blo + dj
      let k := commonRunLen ((a.drop i).take (ahi - i)) ((b.drop j).take (bhi - j))
      if acc.2.2 < k then (i, j, k) else acc) best) (alo, blo, 0)

/-- Total size of all matching blocks (`SequenceMatcher.get_matching_blocks`):
divide and conquer around the longest match.  `fuel` bounds the recursion
depth; `a.length + b.length + 1` always suffices since each recursive window
is strictly smaller. -/
def matchSizeAux (a b : List Char) : Nat → Nat → Nat → Nat → Nat → Nat
  | 0, _, _, _, _ => 0
  | fuel + 1, alo, ahi, blo, bhi =>
    let m := findLongestMatch a b alo ahi blo bhi
    if m.2.2 = 0 then 0
    else
      m.2.2 + matchSizeAux a b fuel alo m.1 blo m.2.1
        + matchSizeAux a b fuel (m.1 + m.2.2) ahi (m.2.1 + m.2.2) bhi

/-- Total matching-block size between two whole character lists. -/
def matchSize (a b : List Char) : Nat :=
  matchSizeAux a b (a.length + b.length + 1) 0 a.length 0 b.length

/-- Exact value of `SequenceMatcher(None, a, b).ratio()`:
`2 * M / (len a + len b)` as a rational number, and `1` when both strings are
empty (difflib `_calculate_ratio`). -/
def similarity (a b : String) : Rat :=
  if a.data.length + b.data.length = 0 then 1
  else mkRat (2 * matchSize a.data b.data) (a.data.length + b.data.length)

/-- Embeds `difflib.get_close_matches(word, possibilities, n=1, cutoff)`:
keep the candidates whose similarity against `word` reaches `cutoff` and
return the one maximising the Python pair `(score, candidate)` (ties between
equal scores go to the lexicographically larger candidate, as
`heapq.nlargest` compares the pairs); `none` when no candidate survives. -/
def getCloseMatches1 (word : String) (possibilities : List String) (cutoff : Rat) :
    Option String :=
  let scored := possibilities.filterMap (fun x =>
    let r := similarity x word
    if cutoff ≤ r then some (r, x) else none)
  (scored.foldl (fun best p =>
    match best with
    | none => some p
    | some q => if q.1 < p.1 ∨ (q.1 = p.1 ∧ q.2 < p.2) then some p else some q) none).map
    (fun p => p.2)

/-- Does `needle` occur at the head of `hay`? -/
def leadsWith : List Char → List Char → Bool
  | [], _ => true
  | _ :: _, [] => false
  | x :: xs, y :: ys => x == y && leadsWith xs ys

/-- Contiguous-sublist test on character lists. -/
def hasSubList (needle : List Char) : List Char → Bool
  | [] => leadsWith needle []
  | y :: ys => leadsWith needle (y :: ys) || hasSubList needle ys

/-- Embeds the Python expression `needle in hay` on strings. -/
def pyIn (needle hay : String) : Bool :=
  hasSubList needle.data hay.data

/-- Embeds Python `str.isdigit` (for ASCII digits): non-empty and every
character a digit. -/
def pyIsDigit (s : String) : Bool :=
  !s.data.isEmpty && s.data.all Char.isDigit

/-- Embeds `is_valid_question` (src/app.py lines 40-42). -/
def is_valid_question (question : String) : Bool :=
  decide (2 < question.length) && !pyIsDigit question

/-- Answers that `save_question` refuses to store (src/app.py line 46). -/
def non_answers : List String :=
  ["❌ لم أتمكن من العثور على إجابة.", "مع السلامة", "إلى اللقاء", "سلام"]

/-- Python dict update `d[k] = v` on an insertion-ordered association list:
overwrite in place when the key exists, otherwise append. -/
def dictInsert (d : List (String × String)) (k v : String) : List (String × String) :=
  if d.any (fun p => p.1 == k) then
    d.map (fun p => if p.1 == k then (k, v) else p)
  else d ++ [(k, v)]

/-- Embeds `save_question` (src/app.py lines 44-49).  The in-memory dict is
updated before the file write, so when the write raises (modelled by the
`writeFails` flag) the raised error carries the already-updated dict. -/
def save_question (writeFails : Bool) (d : List (String × String)) (question answer : String) :
    Except (List (String × String)) (List (String × String)) :=
  if is_valid_question question && !(decide (answer ∈ non_answers)) then
    let d2 := dictInsert d question answer
    if writeFails then .error d2 else .ok d2
  else .ok d

/-- Embeds `fuzzy_match_question` (src/app.py lines 59-63): only the query is
lowercased; the stored keys are compared verbatim. -/
def fuzzy_match_question (question : String) (data : List (String × String)) : Option String :=
  let all_keys := data.map Prod.fst
  match getCloseMatches1 (pyLower question) all_keys (mkRat 3 5) with
  | some key => (data.find? (fun p => p.1 == key)).map Prod.snd
  | none => none

/-- Embeds `search_local_questions` (src/app.py lines 65-67). -/
def search_local_questions (questions : List (String × String)) (query : String) :
    Option String :=
  fuzzy_match_question query questions

/-- One record of `intents.json`: absent keys are modelled by `none` for
`tag` and `detailed_response` and by `[]` for the list fields, matching the
`.get` defaults used by the Python code. -/
structure Intent where
  tag : Option String
  patterns : List String
  responses : List String
  detailed_response : Option String
deriving DecidableEq, Repr

/-- Embeds `search_intents` (src/app.py lines 69-76): the first intent whose
patterns fuzzy-match the raw (not lowercased) question wins; the unguarded
indexing `responses[0]` raises on an empty list, modelled by `.error ()`. -/
def search_intents (intents : List Intent) (question : String) :
    Except Unit (Option String × Option String) :=
  match intents with
  | [] => .ok (none, none)
  | intent :: rest =>
    match getCloseMatches1 question intent.patterns (mkRat 3 5) with
    | some _ =>
      match intent.responses with
      | [] => .error ()
      | r :: _ => .ok (some r, intent.tag)
    | none => search_intents rest question

/-- Keyword list of `is_question_about_museum` (src/app.py line 111). -/
def museum_keywords : List String :=
  ["المتحف", "الفرعونية", "الآثار", "توت عنخ آمون", "رمسيس", "الجيزة",
   "الأهرامات", "الملكة حتشبسوت", "التمثال", "قاعة", "معرض"]

/-- Embeds `is_question_about_museum` (src/app.py lines 110-112). -/
def is_question_about_museum (question : String) : Bool :=
  museum_keywords.any (fun w => pyIn w (pyLower question))

/-- Outcome of one `wikipedia.summary` call: a summary string, an exception of
one of the two caught kinds (`PageError`, `DisambiguationError`), or any other
exception, which propagates out of `search_wikipedia`. -/
inductive WikiRes where
  | summary (s : String)
  | caughtErr
  | uncaughtErr
deriving DecidableEq, Repr

/-- Oracles for every external collaborator of `src/app.py`: language
detection, the two translation directions, the three providers, and whether
the `questions.json` write raises. -/
structure Env where
  detect : String → Except Unit String
  translateToAr : String → Except Unit String
  translateBack : String → String → Except Unit String
  wiki : String → WikiRes
  geminiText : String → Option String
  ddgResults : String → Option (List String)
  writeFails : Bool

/-- Embeds `search_wikipedia` (src/app.py lines 78-85): the summary is kept
only when the lowercased query is a substring of the lowercased summary;
`PageError` and `DisambiguationError` are caught and give `None`; any other
exception propagates. -/
def search_wikipedia (env : Env) (query : String) : Except Unit (Option String) :=
  match env.wiki query with
  | .summary s => .ok (if pyIn (pyLower query) (pyLower s) then some s else none)
  | .caughtErr => .ok none
  | .uncaughtErr => .error ()

/-- Embeds `search_gemini` (src/app.py lines 87-96): the model text is
returned only when truthy and containing the lowercased query as a substring;
every exception is caught, so a `none` oracle value covers both a missing text
and a raised exception. -/
def search_gemini (env : Env) (query : String) : Option String :=
  match env.geminiText query with
  | some t => if !(t == "") && pyIn (pyLower query) (pyLower t) then some t else none
  | none => none

/-- Embeds `search_duckduckgo` (src/app.py lines 98-107): the body of the
first result, with no relevance filtering; every exception is caught. -/
def search_duckduckgo (env : Env) (query : String) : Option String :=
  match env.ddgResults query with
  | some results => results.head?
  | none => none

/-- Python truthiness filter for an optional string (`None` and `""` are
falsy, everything else truthy). -/
def truthyOpt : Option String → Option String
  | some s => if s = "" then none else some s
  | none => none

/-- Embeds the Python `or` between two optional strings (src/app.py line 131):
the left operand when truthy, otherwise the right operand verbatim. -/
def pyOr (a b : Option String) : Option String :=
  match a with
  | some s => if s = "" then b else some s
  | none => b

/-- The process state one request reads and writes: the learned-question dict
and the module-global `last_user_tag` (src/app.py line 56). -/
structure ChatState where
  questions : List (String × String)
  last_tag : Option String
deriving DecidableEq, Repr

/-- Elaboration trigger keywords of src/app.py line 134. -/
def detail_keywords : List String :=
  ["شرح", "تفصيل", "تفصيلي", "معلومات أكتر", "قل لي المزيد", "وضح أكتر",
   "مزيد من التفاصيل", "expand", "tell me more", "عاوز أعرف أكتر"]

/-- Embeds `any(word in translated_message.lower() for word in detail_keywords)`
(src/app.py line 135). -/
def wants_detail (translated : String) : Bool :=
  detail_keywords.any (fun w => pyIn w (pyLower translated))

/-- Python truthiness of `last_user_tag` (src/app.py line 135): a set,
non-empty tag. -/
def truthyTag : Option String → Bool
  | some t => !(t == "")
  | none => false

/-- Embeds the loop of src/app.py lines 136-138: every intent whose tag equals
the last tag and which carries a `detailed_response` overwrites the working
answer; the loop has no break, so the last such intent wins. -/
def detailScan (intents : List Intent) (lastTag : String) (acc : Option String) :
    Option String :=
  match intents with
  | [] => acc
  | intent :: rest =>
    detailScan rest lastTag
      (if intent.tag = some lastTag then
        match intent.detailed_response with
        | some d => some d
        | none => acc
      else acc)

/-- The working answer after intent match, learned lookup and the elaboration
override (src/app.py lines 129-138), just before the fallback step of
line 140. -/
def pre_cascade_answer (intents : List Intent) (st : ChatState) (translated : String)
    (response : Option String) : Option String :=
  let bot0 := pyOr response (search_local_questions st.questions translated)
  if wants_detail translated && truthyTag st.last_tag then
    match st.last_tag with
    | some t => detailScan intents t bot0
    | none => bot0
  else bot0

/-- Fixed sentinel answer of the cascade and of `non_answers`. -/
def noAnswerMsg : String := "❌ لم أتمكن من العثور على إجابة."

/-- Embeds the test of src/app.py line 140: the working answer is falsy or a
known non-answer sentinel (compared lowercased). -/
def needsFallback : Option String → Bool
  | none => true
  | some s =>
    s == "" || decide (pyLower s ∈ ["i do not understand...", noAnswerMsg])

/-- Fixed out-of-scope refusal of src/app.py line 144. -/
def outOfScopeMsg : String :=
  "❌ هذا السؤال خارج نطاق تخصصي، أنا هنا لمساعدتك فيما يخص المتحف المصري فقط."

/-- Generic message of the top-level exception handler (src/app.py line 153). -/
def serverErrorMsg : String := "❌ حدث خطأ في النظام، حاول لاحقًا."

/-- Result of the fallback `or`-chain of src/app.py line 142, together with
which providers were invoked on the way to it. -/
structure CascadeOut where
  answer : String
  wikiCalled : Bool
  geminiCalled : Bool
  ddgCalled : Bool
deriving DecidableEq, Repr

/-- Embeds the `or`-chain of src/app.py line 142 with its left-to-right
short-circuit evaluation: wikipedia, then gemini, then duckduckgo, then the
fixed no-answer sentinel. -/
def fallback_cascade (env : Env) (q : String) : Except Unit CascadeOut :=
  match search_wikipedia env q with
  | .error e => .error e
  | .ok w =>
    match truthyOpt w with
    | some a => .ok ⟨a, true, false, false⟩
    | none =>
      match truthyOpt (search_gemini env q) with
      | some a => .ok ⟨a, true, true, false⟩
      | none =>
        match truthyOpt (search_duckduckgo env q) with
        | some a => .ok ⟨a, true, true, true⟩
        | none => .ok ⟨noAnswerMsg, true, true, true⟩

/-- Embeds src/app.py lines 123-124: detect the language of the message and
translate it to Arabic when that language is not Arabic; either service may
raise.  Returns the detected language together with the translated message. -/
def normalizeMsg (env : Env) (m : String) : Except Unit (String × String) :=
  match env.detect m with
  | .error e => .error e
  | .ok lang =>
    if lang = "ar" then .ok (lang, m)
    else
      match env.translateToAr m with
      | .error e => .error e
      | .ok t => .ok (lang, t)

/-- Everything one request returns: response text, HTTP status, the process
state afterwards, and which fallback providers were invoked. -/
structure BotResult where
  response : String
  status : Nat
  state : ChatState
  wikiCalled : Bool
  geminiCalled : Bool
  ddgCalled : Bool
deriving DecidableEq, Repr

/-- Embeds src/app.py line 148: translate the working answer back unless the
detected language is Arabic. -/
def finish (env : Env) (lang answer : String) (st : ChatState) (w g d : Bool) :
    Except ChatState BotResult :=
  if lang = "ar" then .ok ⟨answer, 200, st, w, g, d⟩
  else
    match env.translateBack lang answer with
    | .error _ => .error st
    | .ok t => .ok ⟨t, 200, st, w, g, d⟩

/-- Embeds the body of `get_bot_response` inside its `try` (src/app.py lines
117-149).  An `.error` value is a raised exception carrying the process state
at the raise point (only `save_question` mutates state before raising; the
provider-invocation flags are not tracked across the exception path since no
result is produced there). -/
def get_bot_response_core (env : Env) (intents : List Intent) (st : ChatState)
    (raw : String) : Except ChatState BotResult :=
  let user_message := pyStrip raw
  if user_message = "" then
    .ok ⟨"❌ لم يتم استقبال رسالة صالحة!", 400, st, false, false, false⟩
  else
    match normalizeMsg env user_message with
    | .error _ => .error st
    | .ok (lang, translated) =>
      if is_valid_question translated then
        match search_intents intents translated with
        | .error _ => .error st
        | .ok (response, _) =>
          let bot1 := pre_cascade_answer intents st translated response
          if needsFallback bot1 then
            if is_question_about_museum translated then
              match fallback_cascade env translated with
              | .error _ => .error st
              | .ok c =>
                match save_question env.writeFails st.questions translated c.answer with
                | .error q2 => .error ⟨q2, st.last_tag⟩
                | .ok q2 =>
                  finish env lang c.answer ⟨q2, st.last_tag⟩
                    c.wikiCalled c.geminiCalled c.ddgCalled
            else
              match save_question env.writeFails st.questions translated outOfScopeMsg with
              | .error q2 => .error ⟨q2, st.last_tag⟩
              | .ok q2 => finish env lang outOfScopeMsg ⟨q2, st.last_tag⟩ false false false
          else
            finish env lang (bot1.getD "") st false false false
      else
        .ok ⟨"❌ السؤال غير واضح، حاول إعادة صياغته!", 200, st, false, false, false⟩

/-- Embeds `get_bot_response` (src/app.py lines 114-153) with its top-level
exception handler (lines 151-153), which converts any raised exception into
the generic server-error response with status 500. -/
def get_bot_response (env : Env) (intents : List Intent) (st : ChatState)
    (raw : String) : BotResult :=
  match get_bot_response_core env intents st raw with
  | .ok r => r
  | .error st2 => ⟨serverErrorMsg, 500, st2, false, false, false⟩

/-- Inert environment: everything detected as Arabic, all providers silent,
persistence succeeding.  Base for the concrete scenarios below. -/
def envAr : Env :=
  ⟨fun _ => .ok "ar", fun _ => .error (), fun _ _ => .error (),
   fun _ => .caughtErr, fun _ => none, fun _ => none, false⟩

/-- One greeting intent used to exercise the intent resolver. -/
def intentsC1 : List Intent :=
  [⟨some "greeting", ["hello"], ["hi there"], none⟩]

/-- Environment whose three providers all produce data, used to check the
per-provider relevance policy. -/
def envW3 : Env :=
  { envAr with
    wiki := fun _ => .summary "xaby"
    geminiText := fun _ => some "xaby"
    ddgResults := fun _ => some ["first", "second"] }

/-- Environment where only the web-search provider answers, and does so with
text unrelated to any query. -/
def envC3 : Env :=
  { envAr with ddgResults := fun _ => some ["General information"] }

/-- Environment where wikipedia answers relevantly but the questions file is
unwritable. -/
def envC4 : Env :=
  { envAr with
    wiki := fun _ => .summary "المتحف المصري في القاهرة العاصمة"
    writeFails := true }

/-- Environment where wikipedia fails, gemini answers relevantly, and the
web-search provider would also answer if it were consulted. -/
def envW7 : Env :=
  { envAr with
    geminiText := fun _ => some "المتحف جميل"
    ddgResults := fun _ => some ["ddg result"] }

/-- Environment detecting English and translating every message to a
two-character Arabic-side text, with a sentinel back-translation. -/
def envW9 : Env :=
  { envAr with
    detect := fun _ => .ok "en"
    translateToAr := fun _ => .ok "ab"
    translateBack := fun _ _ => .ok "SHOULD NOT APPEAR" }

/-- One intent carrying a detailed response, for the elaboration override. -/
def intentsW8 : List Intent :=
  [⟨some "hours", ["opening"], ["open 9 to 5"], some "Open 9 to 5 daily, all week"⟩]

/-- One intent whose responses list is empty. -/
def intentsW10 : List Intent :=
  [⟨some "g", ["hello"], [], none⟩]

/-- Environment where wikipedia answers relevantly and the questions file is
unwritable; a second unwritable-store scenario. -/
def envW4 : Env :=
  { envAr with wiki := fun _ => .summary "زيارة المتحف ممتعة", writeFails := true }

/-- Process state carried by either side of a core result. -/
def coreState : Except ChatState BotResult → ChatState
  | .ok r => r.state
  | .error s => s

theorem coreState_finish (env : Env) (lang answer : String) (st : ChatState) (w g d : Bool) :
    coreState (finish env lang answer st w g d) = st := by
  unfold finish
  by_cases h : lang = "ar"
  · simp [h, coreState]
  · rcases h2 : env.translateBack lang answer with e | t <;> simp [h, h2, coreState]

theorem core_last_tag (env : Env) (intents : List Intent) (st : ChatState) (raw : String) :
    (coreState (get_bot_response_core env intents st raw)).last_tag = st.last_tag := by
  unfold get_bot_response_core
  by_cases h0 : pyStrip raw = ""
  · simp [h0, coreState]
  · simp only [h0, if_false]
    rcases h1 : normalizeMsg env (pyStrip raw) with e | ⟨lang, t⟩
    · simp [h1, coreState]
    · simp only [h1]
      by_cases h2 : is_valid_question t
      · simp only [h2, if_true]
        rcases h3 : search_intents intents t with e | ⟨resp, tg⟩
        · simp [coreState]
        · simp only []
          by_cases h4 : needsFallback (pre_cascade_answer intents st t resp)
          · simp only [h4, if_true]
            by_cases h5 : is_question_about_museum t
            · simp only [h5, if_true]
              rcases h6 : fallback_cascade env t with e | c
              · simp [coreState]
              · rcases h7 : save_question env.writeFails st.questions t c.answer with q2 | q2
                · simp [h7, coreState]
                · simp [h7, coreState_finish]
              -- done?
            · simp only [h5]
              rcases h7 : save_question env.writeFails st.questions t outOfScopeMsg with q2 | q2
              · simp [h7, coreState]
              · simp [h7, coreState_finish]
          · simp [h4, coreState_finish]
      · simp [h2, coreState]

theorem get_bot_response_state (env : Env) (intents : List Intent) (st : ChatState)
    (raw : String) :
    (get_bot_response env intents st raw).state =
      coreState (get_bot_response_core env intents st raw) := by
  unfold get_bot_response
  rcases h : get_bot_response_core env intents st raw with e | r <;> simp [h, coreState]

theorem last_tag_invariant (env : Env) (intents : List Intent) (st : ChatState) (raw : String) :
    (get_bot_response env intents st raw).state.last_tag = st.last_tag := by
  rw [get_bot_response_state]
  exact core_last_tag env intents st raw

theorem save_question_ok (d : List (String × String)) (q a : String) :
    save_question false d q a =
      .ok (if is_valid_question q && !(decide (a ∈ non_answers)) then dictInsert d q a else d) := by
  unfold save_question
  split
  · rename_i h; simp [h]
  · rename_i h; simp [h]

theorem save_question_fail (d : List (String × String)) (q a : String)
    (hq : is_valid_question q = true) (ha : a ∉ non_answers) :
    save_question true d q a = .error (dictInsert d q a) := by
  unfold save_question
  simp [hq, ha]

theorem fallback_cascade_gemini (env : Env) (t : String) (w : Option String) (g : String)
    (hw : search_wikipedia env t = .ok w) (hwt : truthyOpt w = none)
    (hg : env.geminiText t = some g) (hgt : ¬(g = ""))
    (hgs : pyIn (pyLower t) (pyLower g) = true) :
    fallback_cascade env t = .ok ⟨g, true, true, false⟩ := by
  have hsg : search_gemini env t = some g := by
    unfold search_gemini
    rw [hg]
    simp [hgt, hgs]
  unfold fallback_cascade
  simp only [hw, hwt, hsg]
  simp [truthyOpt, hgt]

theorem detailScan_keep (intents : List Intent) (T D : String)
    (h2 : ∀ I ∈ intents, I.tag = some T → ∀ d, I.detailed_response = some d → d = D) :
    detailScan intents T (some D) = some D := by
  induction intents with
  | nil => rfl
  | cons J rest ih =>
    have hrest : ∀ I ∈ rest, I.tag = some T → ∀ d, I.detailed_response = some d → d = D :=
      fun I hI => h2 I (List.mem_cons_of_mem _ hI)
    unfold detailScan
    by_cases ht : J.tag = some T
    · rcases hd : J.detailed_response with _ | d
      · simp only [ht, if_true, hd]
        exact ih hrest
      · have hD : d = D := h2 J (List.mem_cons_self _ _) ht d hd
        subst hD
        simp only [ht, if_true, hd]
        exact ih hrest
    · simp only [ht, if_false]
      exact ih hrest

theorem detailScan_hits (intents : List Intent) (T D : String)
    (h1 : ∃ I, I ∈ intents ∧ I.tag = some T ∧ I.detailed_response = some D)
    (h2 : ∀ I ∈ intents, I.tag = some T → ∀ d, I.detailed_response = some d → d = D)
    (acc : Option String) :
    detailScan intents T acc = some D := by
  induction intents generalizing acc with
  | nil =>
    obtain ⟨I, hI, -, -⟩ := h1
    cases hI
  | cons J rest ih =>
    have hrest2 : ∀ I ∈ rest, I.tag = some T → ∀ d, I.detailed_response = some d → d = D :=
      fun I hI => h2 I (List.mem_cons_of_mem _ hI)
    obtain ⟨I, hI, htag, hdet⟩ := h1
    unfold detailScan
    rcases List.mem_cons.mp hI with rfl | hmem
    · simp only [htag, if_true, hdet]
      exact detailScan_keep rest T D hrest2
    · exact ih ⟨I, hmem, htag, hdet⟩ hrest2 _

/-- C2 (amended): a well-formed query with no intent, learned or elaboration
match that fails the domain keyword gate receives the fixed out-of-scope
message with no provider invoked; but, contrary to the original claim, the
refusal IS persisted: `save_question` runs with the out-of-scope message,
which is not in the `non_answers` exclusion list, so an entry mapping the
query to the refusal is written. -/
theorem C2_out_of_scope_no_providers_but_persisted (env : Env) (intents : List Intent) (st : ChatState) (msg t : String)
    (he : ¬(pyStrip msg = ""))
    (hn : normalizeMsg env (pyStrip msg) = .ok ("ar", t))
    (hv : is_valid_question t = true)
    (hi : search_intents intents t = .ok (none, none))
    (hl : search_local_questions st.questions t = none)
    (hw : (wants_detail t && truthyTag st.last_tag) = false)
    (hm : is_question_about_museum t = false)
    (hwf : env.writeFails = false) :
    get_bot_response env intents st msg =
      ⟨outOfScopeMsg, 200, ⟨dictInsert st.questions t outOfScopeMsg, st.last_tag⟩,
        false, false, false⟩ := by
  have hpc : pre_cascade_answer intents st t none = none := by
    unfold pre_cascade_answer
    simp [hl, hw, pyOr]
  have hno : ¬(outOfScopeMsg ∈ non_answers) := by decide
  unfold get_bot_response get_bot_response_core
  rw [hwf]
  simp [he, hn, hv, hi, hpc, hm, save_question_ok, hno, needsFallback, finish]

/-- C4 (amended): when a working answer has been computed by the cascade and
the persistence write raises, the exception propagates to the top-level
handler and the request returns the generic server-error response with status
500, not the computed answer (the in-memory store does keep the new entry). -/
theorem C4_persist_failure_returns_server_error (env : Env) (intents : List Intent) (st : ChatState) (msg lang t : String)
    (resp tg : Option String) (c : CascadeOut)
    (he : ¬(pyStrip msg = ""))
    (hn : normalizeMsg env (pyStrip msg) = .ok (lang, t))
    (hv : is_valid_question t = true)
    (hi : search_intents intents t = .ok (resp, tg))
    (hpc : needsFallback (pre_cascade_answer intents st t resp) = true)
    (hd : is_question_about_museum t = true)
    (hc : fallback_cascade env t = .ok c)
    (hna : ¬(c.answer ∈ non_answers))
    (hwf : env.writeFails = true) :
    get_bot_response env intents st msg =
      ⟨serverErrorMsg, 500, ⟨dictInsert st.questions t c.answer, st.last_tag⟩,
        false, false, false⟩ := by
  unfold get_bot_response get_bot_response_core
  rw [hwf]
  simp [he, hn, hv, hi, hpc, hd, hc, save_question_fail _ _ _ hv hna]

/-- C7: for an in-domain query reaching the fallback cascade, if the
encyclopedia provider yields no accepted result and the generative provider
yields an accepted relevant one, the working answer is the generative
text of the generative provider and the web-search provider is never invoked. -/
theorem C7_gemini_accepted_short_circuits_web_search (env : Env) (intents : List Intent) (st : ChatState) (msg t : String)
    (resp tg w : Option String) (g : String)
    (he : ¬(pyStrip msg = ""))
    (hn : normalizeMsg env (pyStrip msg) = .ok ("ar", t))
    (hv : is_valid_question t = true)
    (hi : search_intents intents t = .ok (resp, tg))
    (hpc : needsFallback (pre_cascade_answer intents st t resp) = true)
    (hd : is_question_about_museum t = true)
    (hw : search_wikipedia env t = .ok w)
    (hwt : truthyOpt w = none)
    (hg : env.geminiText t = some g)
    (hgt : ¬(g = ""))
    (hgs : pyIn (pyLower t) (pyLower g) = true)
    (hwf : env.writeFails = false) :
    (get_bot_response env intents st msg).response = g ∧
    (get_bot_response env intents st msg).status = 200 ∧
    (get_bot_response env intents st msg).wikiCalled = true ∧
    (get_bot_response env intents st msg).geminiCalled = true ∧
    (get_bot_response env intents st msg).ddgCalled = false := by
  have hc := fallback_cascade_gemini env t w g hw hwt hg hgt hgs
  unfold get_bot_response get_bot_response_core
  rw [hwf]
  simp [he, hn, hv, hi, hpc, hd, hc, save_question_ok, finish]

/-- C6: whenever the normalized text of a query has length 2 or less or
consists purely of digits, the request leaves the learned question-answer
store untouched (no entry added or overwritten). -/
theorem C6_invalid_question_never_persisted (env : Env) (intents : List Intent) (st : ChatState) (msg : String)
    (h : ∀ p : String × String, normalizeMsg env (pyStrip msg) = .ok p →
      p.2.length ≤ 2 ∨ pyIsDigit p.2 = true) :
    (get_bot_response env intents st msg).state.questions = st.questions := by
  unfold get_bot_response get_bot_response_core
  by_cases he : pyStrip msg = ""
  · simp [he]
  · rcases hn : normalizeMsg env (pyStrip msg) with e | ⟨lang, t⟩
    · simp [he, hn]
    · have hv : is_valid_question t = false := by
        rcases h (lang, t) hn with hlen | hdig
        · unfold is_valid_question
          simp [Nat.not_lt.mpr hlen]
        · unfold is_valid_question
          simp [hdig]
      simp [he, hn, hv]

/-- C9: the empty-message client error and the fixed unclear-question
response are returned in the canonical language as-is, for every environment
and hence for every back-translation function: early exits are never
back-translated. -/
theorem C9_early_exits_returned_untranslated :
    (∀ (env : Env) (intents : List Intent) (st : ChatState) (msg : String),
      pyStrip msg = "" →
      get_bot_response env intents st msg =
        ⟨"❌ لم يتم استقبال رسالة صالحة!", 400, st, false, false, false⟩) ∧
    (∀ (env : Env) (intents : List Intent) (st : ChatState) (msg lang t : String),
      ¬(pyStrip msg = "") →
      normalizeMsg env (pyStrip msg) = .ok (lang, t) →
      is_valid_question t = false →
      get_bot_response env intents st msg =
        ⟨"❌ السؤال غير واضح، حاول إعادة صياغته!", 200, st, false, false, false⟩) := by
  constructor
  · intro env intents st msg he
    unfold get_bot_response get_bot_response_core
    simp [he]
  · intro env intents st msg lang t he hn hv
    unfold get_bot_response get_bot_response_core
    simp [he, hn, hv]

/-- C10: a query fuzzy-matching a pattern of an intent whose responses list
is empty (or missing) makes the unguarded indexing raise, so the request
falls through to the top-level handler and returns the generic server-error
response with status 500. -/
theorem C10_empty_responses_raise_to_generic_error :
    (∀ (I : Intent) (rest : List Intent) (q : String),
      (getCloseMatches1 q I.patterns (mkRat 3 5)).isSome = true →
      I.responses = [] →
      search_intents (I :: rest) q = .error ()) ∧
    (∀ (env : Env) (intents : List Intent) (st : ChatState) (msg lang t : String),
      ¬(pyStrip msg = "") →
      normalizeMsg env (pyStrip msg) = .ok (lang, t) →
      is_valid_question t = true →
      search_intents intents t = .error () →
      get_bot_response env intents st msg =
        ⟨serverErrorMsg, 500, st, false, false, false⟩) := by
  constructor
  · intro I rest q hm hresp
    obtain ⟨m, hm2⟩ := Option.isSome_iff_exists.mp hm
    unfold search_intents
    rw [hm2, hresp]
  · intro env intents st msg lang t he hn hv hsi
    unfold get_bot_response get_bot_response_core
    simp [he, hn, hv, hsi]

/-- C3 (amended): the case-insensitive query-substring relevance policy is
enforced by the encyclopedia and generative providers only; the web-search
provider returns the body of its first result unconditionally, with no
relevance check. -/
theorem C3_relevance_policy_first_two_providers_only (env : Env) (q s : String) :
    (search_wikipedia env q = .ok (some s) → pyIn (pyLower q) (pyLower s) = true) ∧
    (search_gemini env q = some s → pyIn (pyLower q) (pyLower s) = true) ∧
    (∀ rs, env.ddgResults q = some rs → search_duckduckgo env q = rs.head?) := by
  refine ⟨?_, ?_, ?_⟩
  · intro h
    unfold search_wikipedia at h
    cases hw : env.wiki q with
    | summary s2 =>
      rw [hw] at h
      simp only [Except.ok.injEq] at h
      split at h
      · rename_i hin
        obtain rfl : s2 = s := Option.some.inj h
        exact hin
      · cases h
    | caughtErr => rw [hw] at h; simp at h
    | uncaughtErr => rw [hw] at h; simp at h
  · intro h
    unfold search_gemini at h
    cases hg : env.geminiText q with
    | none => rw [hg] at h; simp at h
    | some t =>
      rw [hg] at h
      simp only [] at h
      split at h
      · rename_i hc
        obtain rfl : t = s := Option.some.inj h
        simp only [Bool.and_eq_true] at hc
        exact hc.2
      · cases h
  · intro rs h
    unfold search_duckduckgo
    rw [h]

/-- C5 (amended): the learned-store lookup lowercases only the query, so it
is invariant under changes to the letter case of the query; it is NOT
invariant under case changes of the stored keys, and the intent resolver
lowercases neither side (see the counterexample). -/
theorem C5_learned_lookup_query_case_invariant (q1 q2 : String) (data : List (String × String))
    (h : pyLower q1 = pyLower q2) :
    fuzzy_match_question q1 data = fuzzy_match_question q2 data := by
  unfold fuzzy_match_question
  rw [h]

/-- C8: with `last_tag` holding a non-empty tag `T`, an intent with tag `T`
defining a detailed response `D` (uniquely among intents tagged `T`), and a
query containing an elaboration trigger, the working answer after the
elaboration step is exactly `D`, for every intent response and every learned
store - it overrides whatever intent match or learned lookup produced. -/
theorem C8_elaboration_override_pre_cascade (intents : List Intent) (st : ChatState) (t : String)
    (resp : Option String) (T D : String)
    (hT : st.last_tag = some T) (hTne : ¬(T = ""))
    (hkw : wants_detail t = true)
    (h1 : ∃ I, I ∈ intents ∧ I.tag = some T ∧ I.detailed_response = some D)
    (h2 : ∀ I ∈ intents, I.tag = some T → ∀ d, I.detailed_response = some d → d = D) :
    pre_cascade_answer intents st t resp = some D := by
  unfold pre_cascade_answer
  rw [hT]
  simp only [hkw, truthyTag, Bool.true_and]
  have hb : (T == "") = false := by
    simp [hTne]
  simp only [hb, Bool.not_false, if_true]
  exact detailScan_hits intents T D h1 h2 _

/-- C1: on an intent match the resolver does return the first response of the intent
together with its tag, but `last_user_tag` is never assigned
anywhere in the program, so the claimed side effect never happens: after any
request whatsoever, `last_tag` is exactly what it was before. -/
theorem C1_intent_match_returns_but_last_tag_never_updated :
    (∀ (env : Env) (intents : List Intent) (st : ChatState) (raw : String),
      (get_bot_response env intents st raw).state.last_tag = st.last_tag) ∧
    search_intents intentsC1 "hello" = .ok (some "hi there", some "greeting") ∧
    get_bot_response envAr intentsC1 ⟨[], none⟩ "hello" =
      ⟨"hi there", 200, ⟨[], none⟩, false, false, false⟩ :=
  ⟨fun env intents st raw => last_tag_invariant env intents st raw, by decide, by decide⟩

/-- C2 counterexample: a concrete well-formed out-of-domain query receives
the out-of-scope message with zero provider calls, yet the store gains an
entry mapping the query to the refusal - the claim that no entry is
persisted is false. -/
theorem C2_refusal_persisted_counterexample :
    get_bot_response envAr [] ⟨[], none⟩ "what is love" =
      ⟨outOfScopeMsg, 200, ⟨[("what is love", outOfScopeMsg)], none⟩, false, false, false⟩ := by
  decide

/-- C2 witness: the amended theorem applied at a concrete query. -/
theorem C2_out_of_scope_witness :
    get_bot_response envAr [] ⟨[], none⟩ "who are you" =
      ⟨outOfScopeMsg, 200, ⟨[("who are you", outOfScopeMsg)], none⟩, false, false, false⟩ := by
  have h := C2_out_of_scope_no_providers_but_persisted envAr [] ⟨[], none⟩ "who are you" "who are you"
    (by decide) rfl (by decide) rfl (by decide) (by decide) (by decide) rfl
  exact h.trans (by decide)

/-- C3 counterexample: with the first two providers silent, the cascade
accepts a web-search result that does not contain the query text, refuting
the claim that the candidate of every provider must contain the query. -/
theorem C3_web_search_no_relevance_counterexample :
    fallback_cascade envC3 "xyz" = .ok ⟨"General information", true, true, true⟩ ∧
    pyIn (pyLower "xyz") (pyLower "General information") = false :=
  ⟨by decide, by decide⟩

/-- C3 witness: the amended theorem applied at concrete providers. -/
theorem C3_relevance_witness :
    pyIn (pyLower "ab") (pyLower "xaby") = true ∧
    search_duckduckgo envW3 "ab" = some "first" := by
  refine ⟨(C3_relevance_policy_first_two_providers_only envW3 "ab" "xaby").1 (by decide), ?_⟩
  have h := (C3_relevance_policy_first_two_providers_only envW3 "ab" "xaby").2.2 ["first", "second"] rfl
  simpa using h

/-- C4 counterexample: with an unwritable store, a request whose cascade
computed a concrete answer returns the generic server error with status 500
instead of that answer - the claim is false. -/
theorem C4_persist_failure_counterexample :
    get_bot_response envC4 [] ⟨[], none⟩ "المتحف" =
      ⟨serverErrorMsg, 500, ⟨[("المتحف", "المتحف المصري في القاهرة العاصمة")], none⟩,
        false, false, false⟩ ∧
    fallback_cascade envC4 "المتحف" =
      .ok ⟨"المتحف المصري في القاهرة العاصمة", true, false, false⟩ ∧
    ¬(serverErrorMsg = "المتحف المصري في القاهرة العاصمة") :=
  ⟨by decide, by decide, by decide⟩

/-- C4 witness: the amended theorem applied at a concrete scenario. -/
theorem C4_persist_failure_witness :
    get_bot_response envW4 [] ⟨[], none⟩ "المتحف" =
      ⟨serverErrorMsg, 500, ⟨[("المتحف", "زيارة المتحف ممتعة")], none⟩,
        false, false, false⟩ := by
  have h := C4_persist_failure_returns_server_error envW4 [] ⟨[], none⟩ "المتحف" "ar" "المتحف" none none
      ⟨"زيارة المتحف ممتعة", true, false, false⟩
      (by decide) rfl (by decide) rfl (by decide) (by decide) (by decide) (by decide) rfl
  exact h.trans (by decide)

/-- C5 counterexample: flipping the case of the query flips the outcome of the
intent resolver, and flipping the case of a stored key flips the outcome of
the learned lookup - the claimed full case-insensitivity is false. -/
theorem C5_case_sensitivity_counterexample :
    search_intents [⟨some "t", ["abc"], ["resp"], none⟩] "abc" = .ok (some "resp", some "t") ∧
    search_intents [⟨some "t", ["abc"], ["resp"], none⟩] "ABC" = .ok (none, none) ∧
    fuzzy_match_question "abc" [("abc", "v")] = some "v" ∧
    fuzzy_match_question "abc" [("ABC", "v")] = none :=
  ⟨by decide, by decide, by decide, by decide⟩

/-- C5 witness: the amended theorem applied at concrete queries of equal
lowercasing. -/
theorem C5_query_case_witness :
    fuzzy_match_question "ABC" [("abc", "v")] = fuzzy_match_question "AbC" [("abc", "v")] :=
  C5_learned_lookup_query_case_invariant "ABC" "AbC" [("abc", "v")] (by decide)

/-- C6 witness: the theorem applied at the purely numeric query "12". -/
theorem C6_invalid_question_witness :
    (get_bot_response envAr [] ⟨[("a", "b")], none⟩ "12").state.questions = [("a", "b")] := by
  refine C6_invalid_question_never_persisted envAr [] ⟨[("a", "b")], none⟩ "12" ?_
  intro p hp
  rw [show normalizeMsg envAr (pyStrip "12") = Except.ok ("ar", "12") from rfl] at hp
  injection hp with h2
  subst h2
  left
  decide

/-- C7 witness: the theorem applied at a concrete in-domain query with a
failing encyclopedia provider and a relevant generative answer. -/
theorem C7_short_circuit_witness :
    (get_bot_response envW7 [] ⟨[], none⟩ "المتحف").response = "المتحف جميل" ∧
    (get_bot_response envW7 [] ⟨[], none⟩ "المتحف").status = 200 ∧
    (get_bot_response envW7 [] ⟨[], none⟩ "المتحف").wikiCalled = true ∧
    (get_bot_response envW7 [] ⟨[], none⟩ "المتحف").geminiCalled = true ∧
    (get_bot_response envW7 [] ⟨[], none⟩ "المتحف").ddgCalled = false :=
  C7_gemini_accepted_short_circuits_web_search envW7 [] ⟨[], none⟩ "المتحف" "المتحف" none none none "المتحف جميل"
    (by decide) rfl (by decide) rfl (by decide) (by decide) rfl rfl rfl (by decide) (by decide) rfl

/-- C8 witness: the theorem applied at a concrete elaboration request. -/
theorem C8_elaboration_witness :
    pre_cascade_answer intentsW8 ⟨[], some "hours"⟩ "tell me more" none =
      some "Open 9 to 5 daily, all week" := by
  refine C8_elaboration_override_pre_cascade intentsW8 ⟨[], some "hours"⟩ "tell me more" none "hours"
    "Open 9 to 5 daily, all week" rfl (by decide) (by decide)
    ⟨⟨some "hours", ["opening"], ["open 9 to 5"], some "Open 9 to 5 daily, all week"⟩,
      by simp [intentsW8], rfl, rfl⟩ ?_
  intro I hI htag d hd
  simp only [intentsW8, List.mem_singleton] at hI
  subst hI
  simp only at hd
  exact (Option.some.inj hd).symm

/-- C9 witness: both early exits applied under an English-detecting
environment whose back-translation would visibly alter any text it touched. -/
theorem C9_early_exit_witness :
    get_bot_response envW9 [] ⟨[], none⟩ "   " =
      ⟨"❌ لم يتم استقبال رسالة صالحة!", 400, ⟨[], none⟩, false, false, false⟩ ∧
    get_bot_response envW9 [] ⟨[], none⟩ "hi" =
      ⟨"❌ السؤال غير واضح، حاول إعادة صياغته!", 200, ⟨[], none⟩, false, false, false⟩ :=
  ⟨C9_early_exits_returned_untranslated.1 envW9 [] ⟨[], none⟩ "   " (by decide),
   C9_early_exits_returned_untranslated.2 envW9 [] ⟨[], none⟩ "hi" "en" "ab" (by decide) rfl (by decide)⟩

/-- C10 witness: both parts of the theorem applied at a concrete intent with
an empty responses list. -/
theorem C10_empty_responses_witness :
    search_intents intentsW10 "hello" = .error () ∧
    get_bot_response envAr intentsW10 ⟨[], none⟩ "hello" =
      ⟨serverErrorMsg, 500, ⟨[], none⟩, false, false, false⟩ :=
  ⟨C10_empty_responses_raise_to_generic_error.1 ⟨some "g", ["hello"], [], none⟩ [] "hello" (by decide) rfl,
   C10_empty_responses_raise_to_generic_error.2 envAr intentsW10 ⟨[], none⟩ "hello" "ar" "hello" (by decide) rfl (by decide)
     (by decide)⟩
